import Mathlib

/-!
Shallow embedding of `gcplog-rs` (src/src/lib.rs): a `tracing` layer that
emits Google-Cloud-style structured JSON log lines to stderr, correlating
events with a `trace_id` attribute attached to enclosing spans.

Modelling conventions:
* A recorded field is a pair of its name and the string produced by the
  Rust `format!("{value:?}")` debug rendering of its value (the visitors in
  the source only ever consume that rendering).
* Span extension storage (`span.extensions_mut().insert(TraceId(..))`) is an
  association list from span id to the stored trace-id string; a fresh insert
  is a cons, and `lookup` finds the most recent entry, matching
  `Extensions::insert` replace-on-same-type semantics.
* The event scope chain (`ctx.event_scope(event)`, iterated `from_root()`)
  is an optional list of span ids ordered root-first.
* The wall clock (`Utc::now()`) and the network are oracles passed as
  arguments.
-/

namespace Gcplog

/-- A structured field as seen by a `tracing::field::Visit` visitor:
its name and the debug rendering of its value. -/
structure Field where
  name : String
  value : String
deriving Repr, DecidableEq

/-- Visitor `TraceIdVisitor`: `record_debug` overwrites `self.trace_id` each time a
field named `trace_id` is visited, so the last such field wins. -/
def traceIdVisit (fields : List Field) : Option String :=
  fields.foldl (fun acc f => if f.name = "trace_id" then some f.value else acc) none

/-- Visitor `EventVisitor`: `record_debug` overwrites `self.message` each time a
field named `message` is visited, so the last such field wins. -/
def eventVisit (fields : List Field) : Option String :=
  fields.foldl (fun acc f => if f.name = "message" then some f.value else acc) none

/-- Per-span extension storage holding the `TraceId` newtype: an association
list from span id to the stored trace-id string. -/
def Tracker : Type := List (Nat × String)

/-- Empty tracker: no span carries a `TraceId` extension. -/
def Tracker.empty : Tracker := []

/-- Operation `lookup`: read the `TraceId` extension stored for exactly this span
(`span.extensions().get::<TraceId>()`). -/
def Tracker.lookup (tr : Tracker) (id : Nat) : Option String :=
  (List.find? (fun p => p.1 = id) tr).map (fun p => p.2)

/-- Operation `GcpLayer::on_new_span`: run `TraceIdVisitor` over the span's attributes;
if it captured a `trace_id`, insert `TraceId(trace_id)` into that span's
extension storage, otherwise do nothing. -/
def on_new_span (tr : Tracker) (id : Nat) (attrs : List Field) : Tracker :=
  match traceIdVisit attrs with
  | some t => (id, t) :: tr
  | none => tr

/-- The trace-resolution loop of `GcpLayer::on_event`: start from `None`,
and for each span of the scope chain in root-to-leaf order, if that span's
extensions hold a `TraceId(t)`, overwrite the accumulator with
`projects/{gcp_project_id}/traces/{t}`; spans without one are skipped
(`continue`). `scope = none` models `ctx.event_scope(event)` returning
`None` (event outside any span). -/
def resolveTrace (gcp_project_id : String) (tr : Tracker) (scope : Option (List Nat)) :
    Option String :=
  match scope with
  | none => none
  | some chain =>
    chain.foldl
      (fun acc id =>
        match tr.lookup id with
        | none => acc
        | some t => some ("projects/" ++ gcp_project_id ++ "/traces/" ++ t))
      none

/-- Record `SourceLocation` (all three fields serialized as JSON strings). -/
structure SourceLocation where
  file : String
  line : String
  function : String
deriving Repr, DecidableEq

/-- Record `LogEntry`; `trace` and `source_location` are skipped during
serialization when `None` (`skip_serializing_if = "Option::is_none"`). -/
structure LogEntry where
  severity : String
  message : String
  time : String
  trace : Option String
  source_location : Option SourceLocation
deriving Repr, DecidableEq

/-- Levels of `tracing::Level`, ordered as in the `tracing` crate: `ERROR` is the
least verbose, `TRACE` the most verbose. -/
inductive Level where
  | ERROR | WARN | INFO | DEBUG | TRACE
deriving Repr, DecidableEq

/-- Rendering `Level::as_str()`. -/
def Level.as_str : Level → String
  | .ERROR => "ERROR"
  | .WARN => "WARN"
  | .INFO => "INFO"
  | .DEBUG => "DEBUG"
  | .TRACE => "TRACE"

/-- Everything `on_event` reads from the `Event` and its `Context`:
the recorded fields, the static metadata (level, file, line, target),
the enclosing scope chain root-first, and the current wall-clock time
already rendered by `Utc::now().to_rfc3339_opts(SecondsFormat::Millis, true)`. -/
structure EventInput where
  fields : List Field
  level : Level
  file : Option String
  line : Option Nat
  target : String
  scope : Option (List Nat)
  now : String
deriving Repr, DecidableEq

/-- The `LogEntry` constructed by `GcpLayer::on_event` (everything up to the
final serialize-and-write line): trace resolution, `EventVisitor` message
extraction with `unwrap_or_default`, source location built only when a file
path is present with `line` as `metadata.line().unwrap_or(0).to_string()`
and `function` as the target. -/
def on_event_entry (gcp_project_id : String) (tr : Tracker) (e : EventInput) : LogEntry :=
  { severity := e.level.as_str
    message := (eventVisit e.fields).getD ""
    time := e.now
    trace := resolveTrace gcp_project_id tr e.scope
    source_location :=
      e.file.map (fun file =>
        { file := file
          line := toString (e.line.getD 0)
          function := e.target }) }

/-- Escaping by `serde_json` of one character inside a JSON string:
quote and backslash are escaped, the common control characters get their
two-character escapes, all other control characters become `\u00XX`. -/
def escapeChar (c : Char) : String :=
  if c = '"' then "\\\""
  else if c = '\\' then "\\\\"
  else if c = '\n' then "\\n"
  else if c = '\r' then "\\r"
  else if c = '\t' then "\\t"
  else if c = Char.ofNat 8 then "\\b"
  else if c = Char.ofNat 12 then "\\f"
  else if c.toNat < 32 then
    "\\u00" ++ String.mk [Nat.digitChar (c.toNat / 16), Nat.digitChar (c.toNat % 16)]
  else String.mk [c]

/-- Render a Lean string as a JSON string literal, as `serde_json` would. -/
def jsonStr (s : String) : String :=
  "\"" ++ String.join (s.data.map escapeChar) ++ "\""

/-- Render an object from already-rendered field values. -/
def jsonObj (fields : List (String × String)) : String :=
  "\x7b" ++ String.intercalate "," (fields.map (fun p => jsonStr p.1 ++ ":" ++ p.2)) ++ "\x7d"

/-- Serialization of `SourceLocation` (derived `Serialize`: three string
fields in declaration order). -/
def serializeSourceLocation (sl : SourceLocation) : String :=
  jsonObj [("file", jsonStr sl.file), ("line", jsonStr sl.line),
           ("function", jsonStr sl.function)]

/-- The top-level fields `serde_json` emits for a `LogEntry`, in declaration
order, with the renames applied and the two `Option` fields skipped when
`None` (`skip_serializing_if = "Option::is_none"`). -/
def logEntryFields (e : LogEntry) : List (String × String) :=
  [("severity", jsonStr e.severity), ("message", jsonStr e.message),
   ("time", jsonStr e.time)]
  ++ (match e.trace with
      | none => []
      | some t => [("logging.googleapis.com/trace", jsonStr t)])
  ++ (match e.source_location with
      | none => []
      | some sl => [("logging.googleapis.com/sourceLocation", serializeSourceLocation sl)])

/-- Rendering `serde_json::to_string(&entry)` on a `LogEntry`. Serialization of this
record shape (strings and optional structs of strings, derived `Serialize`)
cannot fail, so the model is total; the fallibility of `to_string` is
carried by `to_stringResult` below. -/
def to_string (e : LogEntry) : String :=
  jsonObj (logEntryFields e)

/-- A serialization-failure value, were one ever produced. -/
inductive SerError where
  | err
deriving Repr, DecidableEq

/-- Fallible `serde_json::to_string` as the `Result` the source unwraps:
`to_string` only errors when a `Serialize` impl raises an error or a map has
non-string keys; the derived impls for `LogEntry`/`SourceLocation` (plain
string fields) never do, so every entry serializes to `Ok`. -/
def to_stringResult (e : LogEntry) : Except SerError String :=
  Except.ok (to_string e)

/-- A Rust panic escaping `on_event` (from `.unwrap()` on a serialization
error or from `eprintln!` on a stderr write failure). -/
inductive RustPanic where
  | panic
deriving Repr, DecidableEq

/-- The diagnostic stream (stderr): the lines written so far, whether the
next write fails, and how many write attempts were made. -/
structure Stream where
  lines : List String
  failing : Bool
  attempts : Nat
deriving Repr, DecidableEq

/-- Macro `eprintln!` applied to one line `s`: one write attempt; on success the line is
appended, on failure the macro panics ("failed printing to stderr"). -/
def eprintln (st : Stream ) (s : String) : Except RustPanic Unit × Stream :=
  if st.failing then
    (Except.error RustPanic.panic, { st with attempts := st.attempts + 1 })
  else
    (Except.ok (), { st with lines := st.lines ++ [s], attempts := st.attempts + 1 })

/-- The final line of `on_event`:
`eprintln!("{}", to_string(&entry).unwrap())` — serialize the entry,
panic if that errs (`unwrap`), then write the line to stderr (panicking on
a write failure). Returns the control-flow outcome seen by the code that
emitted the event, paired with the stream state. -/
def on_event_write (entry : LogEntry) (st : Stream ) : Except RustPanic Unit × Stream :=
  match to_stringResult entry with
  | Except.error _ => (Except.error RustPanic.panic, st)
  | Except.ok s => eprintln st s

/-- Filters of `tracing_subscriber::filter::LevelFilter`, ordered as in the crate:
`OFF` enables nothing; a filter enables a level iff the level is at most as
verbose as the filter. -/
inductive LevelFilter where
  | OFF | ERROR | WARN | INFO | DEBUG | TRACE
deriving Repr, DecidableEq

/-- The numeric order `tracing` uses for filters (`OFF = 0`, `TRACE = 5`). -/
def LevelFilter.toNum : LevelFilter → Nat
  | .OFF => 0
  | .ERROR => 1
  | .WARN => 2
  | .INFO => 3
  | .DEBUG => 4
  | .TRACE => 5

/-- The numeric order `tracing` uses for levels (`ERROR = 1`, `TRACE = 5`). -/
def Level.toNum : Level → Nat
  | .ERROR => 1
  | .WARN => 2
  | .INFO => 3
  | .DEBUG => 4
  | .TRACE => 5

/-- A `LevelFilter` enables an event level iff the level's number is at most
the filter's number (semantics of `tracing_subscriber`'s level filtering,
the external collaborator behind `layer.with_filter(level_filter)`). -/
def LevelFilter.enables (f : LevelFilter) (l : Level) : Bool :=
  l.toNum ≤ f.toNum

/-- In the spec's severity order (`TRACE < DEBUG < INFO < WARN < ERROR`), a
level is below a filter's threshold iff it is strictly more verbose:
its `tracing` number exceeds the filter's. -/
def severityBelow (l : Level) (f : LevelFilter) : Bool :=
  f.toNum < l.toNum

/-- Record `Config`: optional explicit project id, optional minimum level. -/
structure Config where
  gcp_project_id : Option String
  level_filter : Option LevelFilter
deriving Repr, DecidableEq

/-- Expression `config.level_filter.unwrap_or(LevelFilter::INFO)` from `init`. -/
def effectiveLevelFilter (config : Config) : LevelFilter :=
  (config.level_filter).getD LevelFilter.INFO

/-- The per-event behaviour of the initialized pipeline
`registry().with(layer.with_filter(level_filter))`: an event whose level the
filter does not enable never reaches `GcpLayer::on_event` and produces no
record; an enabled event produces the `LogEntry` built by `on_event`. -/
def processEvent (gcp_project_id : String) (config : Config) (tr : Tracker)
    (e : EventInput) : Option LogEntry :=
  if (effectiveLevelFilter config).enables e.level then
    some (on_event_entry gcp_project_id tr e)
  else
    none

/-- Rust `char::is_whitespace` (the Unicode `White_Space` set). -/
def rustIsWhitespace (c : Char) : Bool :=
  c.toNat ∈ ([9, 10, 11, 12, 13, 32, 0x85, 0xA0, 0x1680,
    0x2000, 0x2001, 0x2002, 0x2003, 0x2004, 0x2005, 0x2006, 0x2007,
    0x2008, 0x2009, 0x200A, 0x2028, 0x2029, 0x202F, 0x205F, 0x3000] : List Nat)

/-- Rust `str::trim()`: remove leading and trailing whitespace. -/
def rustTrim (s : String) : String :=
  String.mk (((s.data.dropWhile rustIsWhitespace).reverse.dropWhile rustIsWhitespace).reverse)

/-- A failure of the metadata HTTP call (`ureq` error or body-read error). -/
inductive FetchError where
  | err
deriving Repr, DecidableEq

/-- The URL built by `fetch_project_id` from the `GCE_METADATA_HOST`
environment variable (default `169.254.169.254`). -/
def metadataUrl (gceMetadataHost : Option String) : String :=
  "http://" ++ (gceMetadataHost.getD "169.254.169.254")
    ++ "/computeMetadata/v1/project/project-id"

/-- Function `fetch_project_id`, with the network as an oracle: `response` is what
the `ureq` GET (with the `Metadata-Flavor: Google` header and 2 s timeout)
followed by `into_string()` produced. The `?` operators propagate a failure;
on success the body is trimmed. -/
def fetch_project_id (response : Except FetchError String) : Except FetchError String :=
  match response with
  | Except.error e => Except.error e
  | Except.ok body => Except.ok (rustTrim body)

/-- The project-id resolution in `init`:
`config.gcp_project_id.or_else(|| fetch_project_id().ok()).unwrap_or_else(|| "unknown")`.
`Option::or_else` runs its closure only when the option is `None`, so the
returned flag records whether `fetch_project_id` was invoked at all. -/
def resolveProjectId (config : Config) (response : Except FetchError String) :
    String × Bool :=
  match config.gcp_project_id with
  | some p => (p, false)
  | none =>
    match (fetch_project_id response).toOption with
    | some p => (p, true)
    | none => ("unknown", true)

/-! ## Helper definitions and lemmas for the trace-resolution walk -/

/-- The last non-empty entry of a list of optional lookup results: the value
the root-to-leaf walk retains when it keeps overwriting with every non-empty
answer. -/
def lastSome (l : List (Option String)) : Option String :=
  List.findSome? id l.reverse

/-- Concrete events used to exercise the pipeline, varying only the scope
chain. -/
def sampleEvent (scope : Option (List Nat)) : EventInput :=
  { fields := [{ name := "message", value := "hello" }]
    level := Level.INFO
    file := some "src/lib.rs"
    line := some 42
    target := "app"
    scope := scope
    now := "2024-01-01T00:00:00.000Z" }

/-- Tracker state after creating an outer span (id 1, `trace_id = "outer"`)
and then a nested inner span (id 2, `trace_id = "inner"`). -/
def nestedTracker : Tracker :=
  on_new_span (on_new_span Tracker.empty 1 [{ name := "trace_id", value := "outer" }])
    2 [{ name := "trace_id", value := "inner" }]

theorem resolve_foldl_eq (pid : String) (tr : Tracker) :
    ∀ (chain : List Nat) (acc : Option String),
    List.foldl
      (fun acc id =>
        match tr.lookup id with
        | none => acc
        | some t => some ("projects/" ++ pid ++ "/traces/" ++ t))
      acc chain
    = (match List.findSome? tr.lookup chain.reverse with
       | some t => some ("projects/" ++ pid ++ "/traces/" ++ t)
       | none => acc) := by
  intro chain
  induction chain with
  | nil => intro acc; simp [List.findSome?]
  | cons c cs ih =>
    intro acc
    rw [List.foldl_cons, ih]
    rw [List.reverse_cons, List.findSome?_append]
    cases h : List.findSome? tr.lookup cs.reverse with
    | some t => simp [Option.or]
    | none =>
      cases hc : tr.lookup c with
      | none => simp [Option.or, List.findSome?_cons, hc, List.findSome?]
      | some t => simp [Option.or, List.findSome?_cons, hc]

/-- The resolution walk of `on_event` computes the innermost stored
attachment: the first non-empty lookup when scanning the chain leaf-first. -/
theorem resolveTrace_eq_innermost (pid : String) (tr : Tracker) (chain : List Nat) :
    resolveTrace pid tr (some chain)
    = (List.findSome? tr.lookup chain.reverse).map
        (fun t => "projects/" ++ pid ++ "/traces/" ++ t) := by
  show List.foldl _ none chain = _
  rw [resolve_foldl_eq]
  cases h : List.findSome? tr.lookup chain.reverse <;> simp

theorem findSome?_congr_on_members (tr1 tr2 : Tracker) :
    ∀ (l : List Nat), (∀ id ∈ l, tr1.lookup id = tr2.lookup id) →
    List.findSome? tr1.lookup l = List.findSome? tr2.lookup l := by
  intro l
  induction l with
  | nil => intro _; rfl
  | cons c cs ih =>
    intro h
    rw [List.findSome?_cons, List.findSome?_cons, h c (List.mem_cons_self c cs),
      ih (fun id hid => h id (List.mem_cons_of_mem c hid))]

/-- C1: `on_event` resolves the trace identifier by walking the chain
root-to-leaf and keeping the last non-empty tracker lookup; with nested
spans carrying `trace_id = "outer"` (outer) and `trace_id = "inner"`
(inner), an event inside the inner span resolves to the inner identifier
and an event directly inside the outer span resolves to the outer one. -/
theorem on_event_keeps_last_nonempty_lookup :
    (∀ (gcp_project_id : String) (tr : Tracker) (chain : List Nat),
      resolveTrace gcp_project_id tr (some chain)
      = (lastSome (chain.map tr.lookup)).map
          (fun t => "projects/" ++ gcp_project_id ++ "/traces/" ++ t))
    ∧ (on_event_entry "p" nestedTracker (sampleEvent (some [1, 2]))).trace
        = some "projects/p/traces/inner"
    ∧ (on_event_entry "p" nestedTracker (sampleEvent (some [1]))).trace
        = some "projects/p/traces/outer" := by
  refine ⟨fun pid tr chain => ?_, by decide, by decide⟩
  rw [resolveTrace_eq_innermost]
  unfold lastSome
  rw [← List.map_reverse, List.findSome?_map]
  rfl

/-- C8: trace resolution is deterministic — two trackers agreeing on every
lookup along the chain resolve the same trace reference — and the result is
determined by the innermost ancestor carrying an attachment (the first
non-empty lookup leaf-first), not the outermost. -/
theorem trace_resolution_deterministic_and_innermost :
    (∀ (gcp_project_id : String) (tr1 tr2 : Tracker) (chain : List Nat),
      (∀ id ∈ chain, tr1.lookup id = tr2.lookup id) →
      resolveTrace gcp_project_id tr1 (some chain)
        = resolveTrace gcp_project_id tr2 (some chain))
    ∧ (∀ (gcp_project_id : String) (tr : Tracker) (chain : List Nat),
      resolveTrace gcp_project_id tr (some chain)
      = (List.findSome? tr.lookup chain.reverse).map
          (fun t => "projects/" ++ gcp_project_id ++ "/traces/" ++ t)) := by
  constructor
  · intro pid tr1 tr2 chain h
    rw [resolveTrace_eq_innermost, resolveTrace_eq_innermost,
      findSome?_congr_on_members tr1 tr2 chain.reverse
        (fun id hid => h id (List.mem_reverse.mp hid))]
  · exact resolveTrace_eq_innermost

/-- Witness for C8 at concrete inputs: two trackers that agree on the
chain's lookups (but differ elsewhere) resolve identically. -/
theorem trace_resolution_deterministic_and_innermost_witness :
    resolveTrace "p" ([(1, "a")] : Tracker) (some [1])
      = resolveTrace "p" ([(1, "a"), (9, "z")] : Tracker) (some [1]) :=
  trace_resolution_deterministic_and_innermost.1 "p" [(1, "a")] [(1, "a"), (9, "z")] [1]
    (by decide)

theorem findSome?_eq_none_of_lookup_none (tr : Tracker) :
    ∀ (l : List Nat), (∀ id ∈ l, tr.lookup id = none) →
    List.findSome? tr.lookup l = none := by
  intro l
  induction l with
  | nil => intro _; rfl
  | cons c cs ih =>
    intro h
    rw [List.findSome?_cons, h c (List.mem_cons_self c cs)]
    exact ih (fun id hid => h id (List.mem_cons_of_mem c hid))

/-- When no ancestor span carries a stored attachment (or there is no
scope at all), the resolution walk of `on_event` produces `None`. -/
theorem resolveTrace_eq_none (gcp_project_id : String) (tr : Tracker) (scope : Option (List Nat))
    (h : ∀ id ∈ scope.getD [], tr.lookup id = none) :
    resolveTrace gcp_project_id tr scope = none := by
  cases hs : scope with
  | none => rfl
  | some chain =>
    rw [resolveTrace_eq_innermost,
      findSome?_eq_none_of_lookup_none tr chain.reverse
        (fun id hid => by
          have := h id
          rw [hs] at this
          exact this (List.mem_reverse.mp hid))]
    rfl

/-- C3: an event with no enclosing trace-carrying scope serializes with no
trace field at all, and an event inside a single span carrying
`trace_id = "abc123"` under project `"test-project"` serializes the trace
field as exactly `projects/test-project/traces/abc123`. -/
theorem trace_field_omitted_or_exact (gcp_project_id : String) (tr : Tracker) (e : EventInput)
    (h : ∀ id ∈ e.scope.getD [], tr.lookup id = none) :
    (∀ kv ∈ logEntryFields (on_event_entry gcp_project_id tr e),
      kv.1 ≠ "logging.googleapis.com/trace")
    ∧ (∀ e2 : EventInput, e2.scope = some [7] →
      ("logging.googleapis.com/trace", jsonStr "projects/test-project/traces/abc123")
        ∈ logEntryFields (on_event_entry "test-project"
            (on_new_span Tracker.empty 7 [{ name := "trace_id", value := "abc123" }]) e2)) := by
  constructor
  · have hres : resolveTrace gcp_project_id tr e.scope = none := resolveTrace_eq_none _ _ _ h
    intro kv hkv
    cases hf : e.file with
    | none =>
      simp [logEntryFields, on_event_entry, hres, hf] at hkv
      rcases hkv with h1 | h1 | h1 <;> subst h1 <;> simp
    | some f =>
      simp [logEntryFields, on_event_entry, hres, hf] at hkv
      rcases hkv with h1 | h1 | h1 | h1 <;> subst h1 <;> simp
  · intro e2 hs
    have htr : resolveTrace "test-project"
        (on_new_span Tracker.empty 7 [{ name := "trace_id", value := "abc123" }]) e2.scope
        = some "projects/test-project/traces/abc123" := by
      rw [hs]; decide
    simp [logEntryFields, on_event_entry, htr]

/-- Witness for C3: a concrete traceless event serializes with no trace key,
and a concrete event inside the `abc123` span carries the exact reference. -/
theorem trace_field_omitted_or_exact_witness :
    (∀ kv ∈ logEntryFields (on_event_entry "test-project" Tracker.empty (sampleEvent none)),
      kv.1 ≠ "logging.googleapis.com/trace")
    ∧ ("logging.googleapis.com/trace", jsonStr "projects/test-project/traces/abc123")
        ∈ logEntryFields (on_event_entry "test-project"
            (on_new_span Tracker.empty 7 [{ name := "trace_id", value := "abc123" }])
            (sampleEvent (some [7]))) := by
  have h := trace_field_omitted_or_exact "test-project" Tracker.empty (sampleEvent none)
    (by decide)
  exact ⟨h.1, h.2 (sampleEvent (some [7])) rfl⟩

theorem foldl_name_miss (target : String) :
    ∀ (fields : List Field) (acc : Option String),
    (∀ f ∈ fields, f.name ≠ target) →
    fields.foldl (fun acc f => if f.name = target then some f.value else acc) acc = acc := by
  intro fields
  induction fields with
  | nil => intro acc _; rfl
  | cons c cs ih =>
    intro acc h
    rw [List.foldl_cons, if_neg (h c (List.mem_cons_self c cs))]
    exact ih acc (fun f hf => h f (List.mem_cons_of_mem c hf))

/-- C5: an event with no field named `message` yields a record whose
`message` is the empty string, and the serialized record still contains the
`message` field (it is never skipped). -/
theorem missing_message_serialized_as_empty (gcp_project_id : String) (tr : Tracker)
    (e : EventInput) (h : ∀ f ∈ e.fields, f.name ≠ "message") :
    (on_event_entry gcp_project_id tr e).message = ""
    ∧ ("message", jsonStr "") ∈ logEntryFields (on_event_entry gcp_project_id tr e) := by
  have hv : eventVisit e.fields = none := foldl_name_miss "message" e.fields none h
  constructor
  · simp [on_event_entry, hv]
  · simp [logEntryFields, on_event_entry, hv]

/-- Witness for C5 at a concrete event carrying only a `user_id` field. -/
theorem missing_message_serialized_as_empty_witness :
    (on_event_entry "p" Tracker.empty
      { sampleEvent none with fields := [{ name := "user_id", value := "41" }] }).message = ""
    ∧ ("message", jsonStr "") ∈ logEntryFields (on_event_entry "p" Tracker.empty
      { sampleEvent none with fields := [{ name := "user_id", value := "41" }] }) :=
  missing_message_serialized_as_empty "p" Tracker.empty
    { sampleEvent none with fields := [{ name := "user_id", value := "41" }] } (by decide)

/-- C9: an event whose metadata has a file path but no line number still
gets a `sourceLocation` object, with `line` rendered as the string "0"
(from `metadata.line().unwrap_or(0).to_string()`). -/
theorem missing_line_serialized_as_zero (gcp_project_id : String) (tr : Tracker)
    (e : EventInput) (f : String) (hf : e.file = some f) (hl : e.line = none) :
    (on_event_entry gcp_project_id tr e).source_location
      = some { file := f, line := "0", function := e.target }
    ∧ ("logging.googleapis.com/sourceLocation",
        serializeSourceLocation { file := f, line := "0", function := e.target })
      ∈ logEntryFields (on_event_entry gcp_project_id tr e) := by
  have h1 : (on_event_entry gcp_project_id tr e).source_location
      = some { file := f, line := "0", function := e.target } := by
    simp [on_event_entry, hf, hl]
    rfl
  refine ⟨h1, ?_⟩
  simp [logEntryFields, h1]

/-- Witness for C9 at a concrete event with a file path and no line. -/
theorem missing_line_serialized_as_zero_witness :
    (on_event_entry "p" Tracker.empty
      { sampleEvent none with line := none }).source_location
      = some { file := "src/lib.rs", line := "0", function := "app" }
    ∧ ("logging.googleapis.com/sourceLocation",
        serializeSourceLocation { file := "src/lib.rs", line := "0", function := "app" })
      ∈ logEntryFields (on_event_entry "p" Tracker.empty
          { sampleEvent none with line := none }) :=
  missing_line_serialized_as_zero "p" Tracker.empty
    { sampleEvent none with line := none } "src/lib.rs" rfl rfl

/-- The operations the layer exposes to the framework that can touch the
tracker state: span creation (`on_new_span`) and event emission
(`on_event`). -/
inductive Op where
  | newSpan (id : Nat) (attrs : List Field)
  | event (e : EventInput)
deriving DecidableEq

/-- Effect of one framework callback on the tracker state: `on_new_span`
may insert an attachment; `on_event` only borrows span extensions
read-only (`span.extensions()`), so it leaves the state unchanged. -/
def applyOp (tr : Tracker) : Op → Tracker
  | Op.newSpan id attrs => on_new_span tr id attrs
  | Op.event _ => tr

/-- Whether an operation is the creation of span `i` (the only kind of
operation that writes to span `i`'s extension storage). A given live span is
created exactly once, so later operations never satisfy this for it. -/
def Op.createsSpan : Op → Nat → Bool
  | Op.newSpan id _, i => id == i
  | Op.event _, _ => false

/-- C7: the tracker stores an attachment at most once, at span creation —
`on_new_span` is a no-op when no `trace_id` attribute is present, stores
the attribute's rendering when it is, and a stored attachment survives any
sequence of later operations that do not re-create the same span id. -/
theorem trace_attachment_write_once :
    (∀ (tr : Tracker) (id : Nat) (attrs : List Field),
      traceIdVisit attrs = none → on_new_span tr id attrs = tr)
    ∧ (∀ (tr : Tracker) (id : Nat) (attrs : List Field) (t : String),
      traceIdVisit attrs = some t → (on_new_span tr id attrs).lookup id = some t)
    ∧ (∀ (tr : Tracker) (id : Nat) (ops : List Op),
      (∀ op ∈ ops, op.createsSpan id = false) →
      (List.foldl applyOp tr ops).lookup id = tr.lookup id) := by
  refine ⟨?_, ?_, ?_⟩
  · intro tr id attrs h
    unfold on_new_span
    rw [h]
  · intro tr id attrs t h
    unfold on_new_span
    rw [h]
    simp [Tracker.lookup, List.find?]
  · intro tr id ops
    induction ops generalizing tr with
    | nil => intro _; rfl
    | cons op ops ih =>
      intro h
      rw [List.foldl_cons, ih (applyOp tr op) (fun o ho => h o (List.mem_cons_of_mem op ho))]
      cases op with
      | event e => rfl
      | newSpan id2 attrs =>
        have hne : (id2 == id) = false := h (Op.newSpan id2 attrs) (List.mem_cons_self _ _)
        show (on_new_span tr id2 attrs).lookup id = tr.lookup id
        unfold on_new_span
        cases hv : traceIdVisit attrs with
        | none => rfl
        | some t =>
          simp only [Tracker.lookup, List.find?]
          have : (decide (id2 = id)) = false := hne
          rw [this]

/-- Witness for C7: a no-op creation, a stored attachment, and survival of
the attachment across a later unrelated span creation and an event. -/
theorem trace_attachment_write_once_witness :
    on_new_span Tracker.empty 1 [{ name := "user_id", value := "41" }] = Tracker.empty
    ∧ (on_new_span Tracker.empty 1 [{ name := "trace_id", value := "t1" }]).lookup 1 = some "t1"
    ∧ (List.foldl applyOp (on_new_span Tracker.empty 1 [{ name := "trace_id", value := "t1" }])
        [Op.newSpan 2 [{ name := "trace_id", value := "t2" }], Op.event (sampleEvent (some [1]))]).lookup 1
      = some "t1" := by
  refine ⟨trace_attachment_write_once.1 Tracker.empty 1 _ (by decide),
    trace_attachment_write_once.2.1 Tracker.empty 1 _ "t1" (by decide), ?_⟩
  rw [trace_attachment_write_once.2.2
    (on_new_span Tracker.empty 1 [{ name := "trace_id", value := "t1" }]) 1
    [Op.newSpan 2 [{ name := "trace_id", value := "t2" }], Op.event (sampleEvent (some [1]))]
    (by decide)]
  decide

theorem enables_false_of_below (l : Level) (f : LevelFilter) :
    severityBelow l f = true → f.enables l = false := by
  cases l <;> cases f <;> decide

/-- C6: an event below the configured minimum severity produces no output
record, and when the config specifies no minimum the threshold defaults to
`INFO` (so a `DEBUG` event under a default config is dropped while an
`INFO` event is emitted). -/
theorem below_min_severity_no_record :
    (∀ (gcp_project_id : String) (config : Config) (tr : Tracker) (e : EventInput),
      severityBelow e.level (effectiveLevelFilter config) = true →
      processEvent gcp_project_id config tr e = none)
    ∧ (∀ p : Option String,
      effectiveLevelFilter { gcp_project_id := p, level_filter := none } = LevelFilter.INFO)
    ∧ processEvent "p" { gcp_project_id := some "p", level_filter := none } Tracker.empty
        { sampleEvent none with level := Level.DEBUG } = none
    ∧ processEvent "p" { gcp_project_id := some "p", level_filter := none } Tracker.empty
        (sampleEvent none)
      = some (on_event_entry "p" Tracker.empty (sampleEvent none)) := by
  refine ⟨?_, fun p => rfl, by decide, rfl⟩
  intro pid config tr e h
  simp [processEvent, enables_false_of_below e.level (effectiveLevelFilter config) h]

/-- Witness for C6: an `INFO` event is below a `WARN` threshold and is
dropped. -/
theorem below_min_severity_no_record_witness :
    processEvent "p" { gcp_project_id := some "p", level_filter := some LevelFilter.WARN }
      Tracker.empty (sampleEvent none) = none :=
  below_min_severity_no_record.1 "p"
    { gcp_project_id := some "p", level_filter := some LevelFilter.WARN }
    Tracker.empty (sampleEvent none) (by decide)

/-- C4: with an explicit project id the resolution returns it without ever
invoking the metadata fetch (independent of the metadata response); with no
explicit id the fetch is invoked and its trimmed body is used on success,
with the literal "unknown" as fallback on failure. -/
theorem explicit_project_id_skips_fetch :
    (∀ (p : String) (lf : Option LevelFilter) (response : Except FetchError String),
      resolveProjectId { gcp_project_id := some p, level_filter := lf } response = (p, false))
    ∧ (∀ (lf : Option LevelFilter) (body : String),
      resolveProjectId { gcp_project_id := none, level_filter := lf } (Except.ok body)
        = (rustTrim body, true))
    ∧ (∀ (lf : Option LevelFilter) (fe : FetchError),
      resolveProjectId { gcp_project_id := none, level_filter := lf } (Except.error fe)
        = ("unknown", true)) :=
  ⟨fun _ _ _ => rfl, fun _ _ => rfl, fun _ _ => rfl⟩

/-- A concrete entry for exercising the serialize-and-write line. -/
def sampleEntry : LogEntry :=
  { severity := "INFO"
    message := "hi"
    time := "2024-01-01T00:00:00.000Z"
    trace := none
    source_location := none }

/-- C2 counterexample: when the stderr write fails, the final line of
`on_event` (`eprintln!("{}", to_string(&entry).unwrap())`) raises a panic
into the code path that emitted the event, so the write failure is
propagated to the caller after all. -/
theorem write_failure_panics :
    (on_event_write sampleEntry { lines := [], failing := true, attempts := 0 }).1
      = Except.error RustPanic.panic := by
  rfl

/-- C2 amended: serialization of a `LogEntry` cannot fail (so the `unwrap`
never panics and no serialization error reaches the caller), exactly one
write attempt is made per event (never retried), a successful write appends
exactly one line and returns control normally — but a stderr write failure
makes `eprintln!` panic, and that panic propagates into the emitting code
path; no failure is ever returned as an error value. -/
theorem on_event_write_single_attempt :
    ∀ (entry : LogEntry) (st : Stream ),
    to_stringResult entry = Except.ok (to_string entry)
    ∧ (on_event_write entry st).2.attempts = st.attempts + 1
    ∧ (st.failing = false →
        on_event_write entry st
          = (Except.ok (),
             { st with lines := st.lines ++ [to_string entry], attempts := st.attempts + 1 }))
    ∧ (st.failing = true →
        (on_event_write entry st).1 = Except.error RustPanic.panic) := by
  intro entry st
  refine ⟨rfl, ?_, ?_, ?_⟩
  · cases hf : st.failing <;> simp [on_event_write, to_stringResult, eprintln, hf]
  · intro hf; simp [on_event_write, to_stringResult, eprintln, hf]
  · intro hf; simp [on_event_write, to_stringResult, eprintln, hf]

/-- Witness for C2 (amended): at a concrete entry, a healthy stream gets
exactly one line and a failing stream produces a panic. -/
theorem on_event_write_single_attempt_witness :
    on_event_write sampleEntry { lines := [], failing := false, attempts := 0 }
      = (Except.ok (), { lines := [to_string sampleEntry], failing := false, attempts := 1 })
    ∧ (on_event_write sampleEntry { lines := [], failing := true, attempts := 0 }).1
      = Except.error RustPanic.panic := by
  refine ⟨?_, (on_event_write_single_attempt sampleEntry
    { lines := [], failing := true, attempts := 0 }).2.2.2 rfl⟩
  have h := (on_event_write_single_attempt sampleEntry
    { lines := [], failing := false, attempts := 0 }).2.2.1 rfl
  simpa using h

theorem dropWhile_eq_self_of_none (p : Char → Bool) :
    ∀ (l : List Char), (∀ c ∈ l, p c = false) → l.dropWhile p = l := by
  intro l
  induction l with
  | nil => intro _; rfl
  | cons c cs _ =>
    intro h
    rw [List.dropWhile_cons, h c (List.mem_cons_self c cs)]
    simp

theorem mk_data_eq (s : String) : String.mk s.data = s := by
  cases s
  rfl

/-- C10: the metadata response body is trimmed before use, so a response
equal to the project id plus a trailing newline yields exactly the project
id, and the trace references built from it contain no whitespace. -/
theorem metadata_response_trimmed (p : String)
    (hp : p.data.all (fun c => !rustIsWhitespace c) = true) :
    fetch_project_id (Except.ok (p ++ "\n")) = Except.ok p
    ∧ (∀ body : String, fetch_project_id (Except.ok body) = Except.ok (rustTrim body))
    ∧ (∀ t : String, t.data.all (fun c => !rustIsWhitespace c) = true →
        ("projects/" ++ p ++ "/traces/" ++ t).data.all (fun c => !rustIsWhitespace c) = true) := by
  have hall : ∀ c ∈ p.data, rustIsWhitespace c = false := by
    intro c hc
    have := List.all_eq_true.mp hp c hc
    simpa using this
  refine ⟨?_, fun _ => rfl, ?_⟩
  · show Except.ok (rustTrim (p ++ "\n")) = Except.ok p
    congr 1
    unfold rustTrim
    rw [String.data_append]
    have hnl : ("\n" : String).data = ['\n'] := rfl
    rw [hnl]
    cases hd : p.data with
    | nil =>
      have hp0 : p = "" := by
        have := mk_data_eq p
        rw [hd] at this
        exact this.symm
      rw [hp0]
      decide
    | cons c cs =>
      have hfront : (p.data ++ ['\n']).dropWhile rustIsWhitespace = p.data ++ ['\n'] := by
        rw [hd, List.cons_append, List.dropWhile_cons,
          hall c (by rw [hd]; exact List.mem_cons_self c cs)]
        simp
      rw [← hd, hfront, List.reverse_append]
      have hnlws : rustIsWhitespace '\n' = true := by decide
      simp only [List.reverse_cons, List.reverse_nil, List.nil_append, List.singleton_append,
        List.dropWhile_cons, hnlws, if_true]
      rw [dropWhile_eq_self_of_none rustIsWhitespace p.data.reverse
        (fun ch hch => hall ch (List.mem_reverse.mp hch))]
      rw [List.reverse_reverse]
  · intro t ht
    rw [String.data_append, String.data_append, String.data_append,
      List.all_append, List.all_append, List.all_append]
    rw [hp, ht]
    have h1 : ("projects/" : String).data.all (fun c => !rustIsWhitespace c) = true := by decide
    have h2 : ("/traces/" : String).data.all (fun c => !rustIsWhitespace c) = true := by decide
    rw [h1, h2]
    rfl

/-- Witness for C10: a concrete metadata body with a trailing newline. -/
theorem metadata_response_trimmed_witness :
    fetch_project_id (Except.ok ("my-project" ++ "\n")) = Except.ok "my-project" :=
  (metadata_response_trimmed "my-project" (by decide)).1

end Gcplog
